import Mathlib

/-!
Verification of the benchmark comparison engine of `aztec-benchmark`
(`src/compare.ts` and the gas helpers of `src/utils.ts`).

Metric values (gate counts, DA gas, L2 gas) are integers in the data model,
embedded as `Int`; percentage deltas and thresholds are embedded as `ℚ`.
The JavaScript `Infinity` sentinel produced by `calcPctDiff` when a baseline
metric is zero and the current one positive is embedded as the constructor
`Pct.inf`; all other percentage values are `Pct.fin q`.
-/

/-- Gas type of `src/types.ts`: one value per gas dimension. -/
structure Gas where
  daGas : Int
  l2Gas : Int
deriving DecidableEq, Repr

/-- The `gas` field of a profiling result. In `src/utils.ts` the
`gasLimits` and `teardownGasLimits` sub-objects are read through optional
chaining (`result.gas.gasLimits?.daGas ?? 0`), so each is embedded as an
`Option Gas`. -/
structure GasInfo where
  gasLimits : Option Gas
  teardownGasLimits : Option Gas
deriving DecidableEq, Repr

/-- ProfileResult of `src/types.ts`, as consumed by `compare.ts` after JSON
parsing: `totalGateCount` is read as `result.totalGateCount ?? 0` and `gas`
through `result?.gas`, so both are embedded as optional. The `gateCounts`
field is never read by the comparison engine and is omitted. -/
structure ProfileResult where
  name : String
  totalGateCount : Option Int
  gas : Option GasInfo
deriving DecidableEq, Repr

/-- ProfileReport of `src/types.ts`. The comparison engine reads only the
`results` list; the redundant `summary` and `gasSummary` maps are omitted. -/
structure ProfileReport where
  results : List ProfileResult
deriving DecidableEq, Repr

/-- MetricComparison of `src/types.ts`: baseline (`main`) and current (`pr`)
value of one metric. -/
structure MetricComparison where
  main : Int
  pr : Int
deriving DecidableEq, Repr

/-- ComparisonResult of `src/types.ts`: the three compared metrics of one
function. -/
structure ComparisonResult where
  gates : MetricComparison
  daGas : MetricComparison
  l2Gas : MetricComparison
deriving DecidableEq, Repr

/-- Config of `src/types.ts` (the fields the comparison engine reads;
`report_path` and `repo_root` are file-system plumbing). -/
structure Config where
  regression_threshold_percentage : Option ℚ
deriving DecidableEq, Repr

/-- getDaGas of `src/utils.ts`: total DA gas of a result, 0 when the result,
its `gas` field, or a sub-object is missing. -/
def getDaGas (result : Option ProfileResult) : Int :=
  match result with
  | none => 0
  | some r =>
    match r.gas with
    | none => 0
    | some g =>
      ((g.gasLimits.map Gas.daGas).getD 0) + ((g.teardownGasLimits.map Gas.daGas).getD 0)

/-- getL2Gas of `src/utils.ts`: total L2 gas of a result, 0 when the result,
its `gas` field, or a sub-object is missing. -/
def getL2Gas (result : Option ProfileResult) : Int :=
  match result with
  | none => 0
  | some r =>
    match r.gas with
    | none => 0
    | some g =>
      ((g.gasLimits.map Gas.l2Gas).getD 0) + ((g.teardownGasLimits.map Gas.l2Gas).getD 0)

/-- Percentage delta of one metric: either the JavaScript `Infinity`
sentinel or a finite rational. -/
inductive Pct where
  | inf : Pct
  | fin : ℚ → Pct
deriving DecidableEq, Repr

/-- calcPctDiff of `src/compare.ts` (local to `getStatusEmoji`): `Infinity`
when the baseline is 0 and the current value positive, 0 when both are 0,
otherwise the relative change `(pr - main) / main`. -/
def calcPctDiff (main pr : Int) : Pct :=
  if main = 0 then
    (if 0 < pr then Pct.inf else Pct.fin 0)
  else
    Pct.fin (((pr : ℚ) - (main : ℚ)) / (main : ℚ))

/-- `isNew` of `getStatusEmoji`: every baseline metric 0 and some current
metric positive. -/
def isNewEntry (metrics : ComparisonResult) : Prop :=
  metrics.gates.main = 0 ∧ metrics.daGas.main = 0 ∧ metrics.l2Gas.main = 0 ∧
    (0 < metrics.gates.pr ∨ 0 < metrics.daGas.pr ∨ 0 < metrics.l2Gas.pr)

/-- `isRemoved` of `getStatusEmoji`: every current metric 0 and some
baseline metric positive. -/
def isRemovedEntry (metrics : ComparisonResult) : Prop :=
  metrics.gates.pr = 0 ∧ metrics.daGas.pr = 0 ∧ metrics.l2Gas.pr = 0 ∧
    (0 < metrics.gates.main ∨ 0 < metrics.daGas.main ∨ 0 < metrics.l2Gas.main)

instance (metrics : ComparisonResult) : Decidable (isNewEntry metrics) := by
  unfold isNewEntry; infer_instance

instance (metrics : ComparisonResult) : Decidable (isRemovedEntry metrics) := by
  unfold isRemovedEntry; infer_instance

/-- The three percentage deltas of an entry, in source order (gates, DA gas,
L2 gas). -/
def metricPcts (metrics : ComparisonResult) : List Pct :=
  [calcPctDiff metrics.gates.main metrics.gates.pr,
   calcPctDiff metrics.daGas.main metrics.daGas.pr,
   calcPctDiff metrics.l2Gas.main metrics.l2Gas.pr]

/-- `metricsDiffs` of `getStatusEmoji`: the finite percentage deltas
(the `filter(isFinite)` of the source). -/
def finitePcts (metrics : ComparisonResult) : List ℚ :=
  (metricPcts metrics).filterMap (fun p => match p with | Pct.inf => none | Pct.fin q => some q)

/-- `hasInfiniteIncrease` of `getStatusEmoji`: some delta is the `Infinity`
sentinel. -/
def hasInfiniteIncrease (metrics : ComparisonResult) : Bool :=
  (metricPcts metrics).any (fun p => p == Pct.inf)

/-- `hasRegression` of `getStatusEmoji`: an infinite increase, or a finite
delta above the threshold. -/
def hasRegression (metrics : ComparisonResult) (thresholdDecimal : ℚ) : Bool :=
  hasInfiniteIncrease metrics || (finitePcts metrics).any (fun m => decide (thresholdDecimal < m))

/-- `hasImprovement` of `getStatusEmoji`: a finite delta below the negated
threshold. -/
def hasImprovement (metrics : ComparisonResult) (thresholdDecimal : ℚ) : Bool :=
  (finitePcts metrics).any (fun m => decide (m < -thresholdDecimal))

/-- getStatusEmoji of `src/compare.ts`: the status of one comparison entry,
as the emoji string the source returns ("🆕" New, "🚮" Removed,
"🔴" Regression, "🟢" Improvement, "⚪" Unchanged). -/
def getStatusEmoji (metrics : ComparisonResult) (thresholdDecimal : ℚ) : String :=
  if isNewEntry metrics then "🆕"
  else if isRemovedEntry metrics then "🚮"
  else if hasRegression metrics thresholdDecimal then "🔴"
  else if hasImprovement metrics thresholdDecimal then "🟢"
  else "⚪"

/-- Evaluation of `calcPctDiff` off the zero-baseline branches. -/
lemma calcPctDiff_of_ne {main : Int} (pr : Int) (h : main ≠ 0) :
    calcPctDiff main pr = Pct.fin (((pr : ℚ) - (main : ℚ)) / (main : ℚ)) := by
  simp [calcPctDiff, h]

/-- Both values zero: the delta is the finite 0. -/
lemma calcPctDiff_zero_zero : calcPctDiff 0 0 = Pct.fin 0 := by
  simp [calcPctDiff]

/-- Zero baseline, positive current value: the delta is the `Infinity`
sentinel. -/
lemma calcPctDiff_zero_pos {pr : Int} (h : 0 < pr) : calcPctDiff 0 pr = Pct.inf := by
  simp [calcPctDiff, h]

/-- Unchanged metric: the delta is the finite 0. -/
lemma calcPctDiff_self (a : Int) : calcPctDiff a a = Pct.fin 0 := by
  by_cases h : a = 0
  · subst h; exact calcPctDiff_zero_zero
  · simp [calcPctDiff, h]

/-- getStatusEmoji on a New entry. -/
lemma getStatusEmoji_new {m : ComparisonResult} (t : ℚ) (h : isNewEntry m) :
    getStatusEmoji m t = "🆕" := by
  unfold getStatusEmoji; rw [if_pos h]

/-- getStatusEmoji on a Removed entry. -/
lemma getStatusEmoji_removed {m : ComparisonResult} (t : ℚ)
    (h1 : ¬ isNewEntry m) (h2 : isRemovedEntry m) :
    getStatusEmoji m t = "🚮" := by
  unfold getStatusEmoji; rw [if_neg h1, if_pos h2]

/-- getStatusEmoji on a Regression entry. -/
lemma getStatusEmoji_red {m : ComparisonResult} {t : ℚ}
    (h1 : ¬ isNewEntry m) (h2 : ¬ isRemovedEntry m)
    (h3 : hasRegression m t = true) :
    getStatusEmoji m t = "🔴" := by
  unfold getStatusEmoji; rw [if_neg h1, if_neg h2, if_pos h3]

/-- getStatusEmoji on an Improvement entry. -/
lemma getStatusEmoji_green {m : ComparisonResult} {t : ℚ}
    (h1 : ¬ isNewEntry m) (h2 : ¬ isRemovedEntry m)
    (h3 : hasRegression m t = false) (h4 : hasImprovement m t = true) :
    getStatusEmoji m t = "🟢" := by
  unfold getStatusEmoji
  rw [if_neg h1, if_neg h2, if_neg (by simp [h3]), if_pos h4]

/-- getStatusEmoji on an Unchanged entry. -/
lemma getStatusEmoji_white {m : ComparisonResult} {t : ℚ}
    (h1 : ¬ isNewEntry m) (h2 : ¬ isRemovedEntry m)
    (h3 : hasRegression m t = false) (h4 : hasImprovement m t = false) :
    getStatusEmoji m t = "⚪" := by
  unfold getStatusEmoji
  rw [if_neg h1, if_neg h2, if_neg (by simp [h3]), if_neg (by simp [h4])]

/-- Membership form of `hasRegression`. -/
lemma hasRegression_iff (m : ComparisonResult) (t : ℚ) :
    hasRegression m t = true ↔
      (Pct.inf ∈ metricPcts m ∨ ∃ q : ℚ, Pct.fin q ∈ metricPcts m ∧ t < q) := by
  simp only [hasRegression, hasInfiniteIncrease, finitePcts, Bool.or_eq_true,
    List.any_eq_true, List.mem_filterMap, beq_iff_eq, decide_eq_true_eq]
  constructor
  · rintro (⟨p, hp, rfl⟩ | ⟨q, ⟨p, hp, hpq⟩, hq⟩)
    · exact Or.inl hp
    · refine Or.inr ⟨q, ?_, hq⟩
      cases p with
      | inf => simp at hpq
      | fin r => simp at hpq; subst hpq; exact hp
  · rintro (hp | ⟨q, hq, hqt⟩)
    · exact Or.inl ⟨Pct.inf, hp, rfl⟩
    · exact Or.inr ⟨q, ⟨Pct.fin q, hq, rfl⟩, hqt⟩

/-- Membership form of `hasImprovement`. -/
lemma hasImprovement_iff (m : ComparisonResult) (t : ℚ) :
    hasImprovement m t = true ↔
      ∃ q : ℚ, Pct.fin q ∈ metricPcts m ∧ q < -t := by
  simp only [hasImprovement, finitePcts, List.any_eq_true, List.mem_filterMap,
    decide_eq_true_eq]
  constructor
  · rintro ⟨q, ⟨p, hp, hpq⟩, hq⟩
    refine ⟨q, ?_, hq⟩
    cases p with
    | inf => simp at hpq
    | fin r => simp at hpq; subst hpq; exact hp
  · rintro ⟨q, hq, hqt⟩
    exact ⟨q, ⟨Pct.fin q, hq, rfl⟩, hqt⟩

example : getStatusEmoji ⟨⟨0, 50⟩, ⟨0, 0⟩, ⟨0, 0⟩⟩ (99/100) = "🆕" := by decide

/-- Substring test on character lists, embedding JavaScript
`String.prototype.includes`. -/
def containsSub (sub : List Char) : List Char → Bool
  | [] => sub.isEmpty
  | c :: rest => sub.isPrefixOf (c :: rest) || containsSub sub rest

/-- The name filter of `processResults` in `generateContractComparisonTable`
(`src/compare.ts` line 76): an entry is skipped when its name is empty
(falsy), starts with `unknown_function`, or contains `(FAILED)`. -/
def skipName (name : String) : Bool :=
  name == "" || ("unknown_function".data.isPrefixOf name.data) ||
    containsSub "(FAILED)".data name.data

example : skipName "unknown_function_abcd" = true := by decide
example : skipName "transfer (FAILED)" = true := by decide
example : skipName "" = true := by decide
example : skipName "transfer" = false := by decide

/-- Which side of a `MetricComparison` an update targets (`'main' | 'pr'`
in the source). -/
inductive Target where
  | main : Target
  | pr : Target
deriving DecidableEq, Repr

/-- Writes one side of a `MetricComparison`
(`comparison[name].gates[target] = ...`). -/
def setSide (mc : MetricComparison) (target : Target) (v : Int) : MetricComparison :=
  match target with
  | Target.main => { mc with main := v }
  | Target.pr => { mc with pr := v }

/-- The zero-initialized entry created on first sight of a name
(`src/compare.ts` lines 82-86). -/
def zeroComparisonResult : ComparisonResult :=
  ⟨⟨0, 0⟩, ⟨0, 0⟩, ⟨0, 0⟩⟩

/-- Writes the three metrics of one side of an entry from a profiling
result (`src/compare.ts` lines 88-90). -/
def applyResult (c : ComparisonResult) (target : Target) (r : ProfileResult) : ComparisonResult :=
  { gates := setSide c.gates target (r.totalGateCount.getD 0),
    daGas := setSide c.daGas target (getDaGas (some r)),
    l2Gas := setSide c.l2Gas target (getL2Gas (some r)) }

/-- Replaces the binding of `name` in an association list, appending it if
absent (the `comparison[name] = ...` record write). -/
def setEntry : List (String × ComparisonResult) → String → ComparisonResult →
    List (String × ComparisonResult)
  | [], name, v => [(name, v)]
  | (k, old) :: rest, name, v =>
    if k = name then (k, v) :: rest else (k, old) :: setEntry rest name v

/-- State built by `processResults`: the insertion-ordered name set
(`allFunctionNames`) and the name-keyed comparison map (`comparison`). -/
structure CompState where
  names : List String
  map : List (String × ComparisonResult)
deriving DecidableEq, Repr

/-- One step of `processResults` (`src/compare.ts` lines 74-91): skip
filtered names, otherwise record the name and write the target side of its
entry, creating a zero-filled entry on first sight. -/
def processResult (target : Target) (st : CompState) (result : ProfileResult) : CompState :=
  if skipName result.name then st
  else
    let prev := (st.map.lookup result.name).getD zeroComparisonResult
    { names := if result.name ∈ st.names then st.names else st.names ++ [result.name],
      map := setEntry st.map result.name (applyResult prev target result) }

/-- processResults of `src/compare.ts`: folds one report's results into the
comparison state for the given side. -/
def processResults (report : ProfileReport) (target : Target) (st : CompState) : CompState :=
  report.results.foldl (processResult target) st

/-- The comparison state after processing the baseline (`main`) then the
current (`pr`) report, as in `src/compare.ts` lines 94-95. -/
def buildComparison (mainData prData : ProfileReport) : CompState :=
  processResults prData Target.pr (processResults mainData Target.main ⟨[], []⟩)

/-- The row order of the rendered table (`src/compare.ts` line 130):
`Array.from(allFunctionNames).sort()`. -/
def sortedFunctionNames (mainData prData : ProfileReport) : List String :=
  (buildComparison mainData prData).names.mergeSort (fun a b => decide (a ≤ b))

/-- Digit grouping used by `Number.prototype.toLocaleString`: splits a
little-endian digit list into groups of three. -/
def chunk3 : List Char → List (List Char)
  | [] => []
  | [a] => [[a]]
  | [a, b] => [[a, b]]
  | a :: b :: c :: rest => [a, b, c] :: chunk3 rest

/-- Integer rendering of `Number.prototype.toLocaleString` in the default
`en` locale: decimal digits with `,` as thousands separator. -/
def toLocaleStringInt (n : Int) : String :=
  (if n < 0 then "-" else "") ++
    String.intercalate ","
      (((chunk3 (toString n.natAbs).data.reverse).map List.reverse).reverse.map
        (fun l => String.mk l))

/-- Rendering of `Number.prototype.toFixed(0)`: rounds the magnitude half
up and re-attaches the sign (the values reaching it in `formatDiff` are
exact rationals, so the float-representation caveat of `toFixed` does not
arise in the claims below). -/
def toFixed0 (q : ℚ) : String :=
  if q < 0 then "-" ++ toString (⌊-q + 1/2⌋ : Int) else toString (⌊q + 1/2⌋ : Int)

/-- formatDiff of `src/compare.ts`: the Diff cell of the table for one
metric. -/
def formatDiff (main pr : Int) : String :=
  if main = 0 ∧ pr = 0 then "-"
  else if main = 0 then "+100% 🚀"
  else if pr = 0 then "-100% 🗑️"
  else
    let diff := pr - main
    if diff = 0 then "-"
    else
      let pct : ℚ := (((diff : ℚ)) / (main : ℚ)) * 100
      let sign := if 0 < diff then "+" else ""
      if |pct| < 1/100 then "-"
      else sign ++ toLocaleStringInt diff ++ " (" ++ sign ++ toFixed0 pct ++ "%)"

/-- The fixed table header lines of `generateContractComparisonTable`. -/
def tableHeaderLines : List String :=
  ["<table>",
   "<thead>",
   "<tr>",
   "  <th></th>",
   "  <th>Function</th>",
   "  <th colspan=\"3\" align=\"center\">Gates</th>",
   "  <th colspan=\"3\" align=\"center\">DA Gas</th>",
   "  <th colspan=\"3\" align=\"center\">L2 Gas</th>",
   "</tr>",
   "<tr>",
   "  <th>Status</th>",
   "  <th></th>",
   "  <th align=\"right\">Base</th>",
   "  <th align=\"right\">PR</th>",
   "  <th align=\"center\">Diff</th>",
   "  <th align=\"right\">Base</th>",
   "  <th align=\"right\">PR</th>",
   "  <th align=\"center\">Diff</th>",
   "  <th align=\"right\">Base</th>",
   "  <th align=\"right\">PR</th>",
   "  <th align=\"center\">Diff</th>",
   "</tr>",
   "</thead>",
   "<tbody>"]

/-- The table lines of one function row (`src/compare.ts` lines 141-158). -/
def renderRow (funcName : String) (metrics : ComparisonResult) (thresholdDecimal : ℚ) :
    List String :=
  ["<tr>",
   "  <td align=\"center\">" ++ getStatusEmoji metrics thresholdDecimal ++ "</td>",
   "  <td><code>" ++ funcName ++ "</code></td>",
   "  <td align=\"right\">" ++ toLocaleStringInt metrics.gates.main ++ "</td>",
   "  <td align=\"right\">" ++ toLocaleStringInt metrics.gates.pr ++ "</td>",
   "  <td align=\"center\">" ++ formatDiff metrics.gates.main metrics.gates.pr ++ "</td>",
   "  <td align=\"right\">" ++ toLocaleStringInt metrics.daGas.main ++ "</td>",
   "  <td align=\"right\">" ++ toLocaleStringInt metrics.daGas.pr ++ "</td>",
   "  <td align=\"center\">" ++ formatDiff metrics.daGas.main metrics.daGas.pr ++ "</td>",
   "  <td align=\"right\">" ++ toLocaleStringInt metrics.l2Gas.main ++ "</td>",
   "  <td align=\"right\">" ++ toLocaleStringInt metrics.l2Gas.pr ++ "</td>",
   "  <td align=\"center\">" ++ formatDiff metrics.l2Gas.main metrics.l2Gas.pr ++ "</td>",
   "</tr>"]

/-- generateContractComparisonTable of `src/compare.ts`: the Markdown/HTML
table comparing the two reports of one contract, rows in sorted name order
(names whose map entry is missing are guarded and skipped, as in the
source). -/
def generateContractComparisonTable (mainData prData : ProfileReport)
    (thresholdDecimal : ℚ) : String :=
  let st := buildComparison mainData prData
  if st.names.isEmpty then "\n_No valid benchmark functions found to compare._\n"
  else
    let sorted := st.names.mergeSort (fun a b => decide (a ≤ b))
    let rows := sorted.foldl (fun acc n =>
      match st.map.lookup n with
      | none => acc
      | some m => acc ++ renderRow n m thresholdDecimal) []
    String.intercalate "\n" (tableHeaderLines ++ rows ++ ["</tbody>", "</table>"])

/-- Outcome of loading and parsing one contract's benchmark file pair in
`runComparison` (`src/compare.ts` lines 256-269). The file system and
`JSON.parse` are external, so the load outcome is an input of the model:
`loadError` is a thrown read/parse error, and each side's `results` field
is `none` when missing or not an array (the basic-validation check). -/
inductive UnitLoad where
  | loadError (msg : String) : UnitLoad
  | loaded (mainResults : Option (List ProfileResult))
           (prResults : Option (List ProfileResult)) : UnitLoad
deriving DecidableEq, Repr

/-- One discovered contract pair with its load outcome. -/
structure BenchmarkPair where
  name : String
  load : UnitLoad
deriving DecidableEq, Repr

/-- Whether the pair passed loading and basic validation. -/
def wellFormedLoad : UnitLoad → Bool
  | UnitLoad.loaded (some _) (some _) => true
  | _ => false

/-- The Markdown lines one contract contributes to the report, and whether
it counted as successfully compared (`src/compare.ts` lines 256-289). -/
def unitSections (thresholdDecimal : ℚ) (p : BenchmarkPair) : List String × Bool :=
  match p.load with
  | UnitLoad.loadError msg =>
    (["## Contract: " ++ p.name ++ "\n",
      "\n⚠️ Error comparing benchmarks for this contract: " ++ msg ++ "\n",
      "\n---\n"], false)
  | UnitLoad.loaded none _ =>
    (["## Contract: " ++ p.name ++ "\n\n_Skipped: Invalid benchmark JSON structure._\n"], false)
  | UnitLoad.loaded (some _) none =>
    (["## Contract: " ++ p.name ++ "\n\n_Skipped: Invalid benchmark JSON structure._\n"], false)
  | UnitLoad.loaded (some mainResults) (some prResults) =>
    (["## Contract: " ++ p.name,
      generateContractComparisonTable ⟨mainResults⟩ ⟨prResults⟩ thresholdDecimal,
      "\n---\n"], true)

/-- The per-contract loop of `runComparison` (`src/compare.ts` lines
248-291): the concatenated report lines of all pairs and the
`contractsComparedCount`. -/
def runComparisonSections (thresholdDecimal : ℚ) (pairs : List BenchmarkPair) :
    List String × Nat :=
  pairs.foldl (fun acc p =>
    let s := unitSections thresholdDecimal p
    (acc.1 ++ s.1, acc.2 + (if s.2 then 1 else 0))) ([], 0)

/-- The threshold conversion of `runComparison` (`src/compare.ts` line
223): `(regression_threshold_percentage ?? 0) / 100`. -/
def effectiveThresholdDecimal (config : Config) : ℚ :=
  (config.regression_threshold_percentage.getD 0) / 100

/-- The name list written by one `processResult` step. -/
lemma processResult_names (target : Target) (st : CompState) (r : ProfileResult) :
    (processResult target st r).names =
      if skipName r.name then st.names
      else if r.name ∈ st.names then st.names else st.names ++ [r.name] := by
  unfold processResult
  by_cases hs : skipName r.name
  · simp [hs]
  · by_cases hm : r.name ∈ st.names <;> simp [hs, hm]

/-- Names recorded by one `processResult` step: the previous names, plus the
result's name when it passes the filter. -/
lemma mem_names_processResult (target : Target) (st : CompState) (r : ProfileResult)
    (x : String) :
    x ∈ (processResult target st r).names ↔
      x ∈ st.names ∨ (skipName r.name = false ∧ x = r.name) := by
  rw [processResult_names]
  by_cases hs : skipName r.name
  · simp [hs]
  · by_cases hm : r.name ∈ st.names
    · simp only [if_neg hs, if_pos hm, Bool.not_eq_true] at *
      constructor
      · exact fun h => Or.inl h
      · rintro (h | ⟨-, rfl⟩)
        · exact h
        · exact hm
    · simp only [Bool.not_eq_true] at hs
      simp [hs, hm]

/-- Names recorded by a whole `processResults` pass. -/
lemma mem_names_processResults (report : ProfileReport) (target : Target) (x : String) :
    ∀ st : CompState,
      x ∈ (processResults report target st).names ↔
        x ∈ st.names ∨ ∃ r ∈ report.results, skipName r.name = false ∧ x = r.name := by
  show ∀ st, x ∈ (report.results.foldl (processResult target) st).names ↔ _
  induction report.results with
  | nil => intro st; simp
  | cons r rs ih =>
    intro st
    rw [List.foldl_cons, ih]
    rw [mem_names_processResult]
    simp only [List.mem_cons]
    constructor
    · rintro ((h | h) | ⟨r', hr', h⟩)
      · exact Or.inl h
      · exact Or.inr ⟨r, Or.inl rfl, h⟩
      · exact Or.inr ⟨r', Or.inr hr', h⟩
    · rintro (h | ⟨r', (rfl | hr'), h⟩)
      · exact Or.inl (Or.inl h)
      · exact Or.inl (Or.inr h)
      · exact Or.inr ⟨r', hr', h⟩

/-- `processResult` preserves freedom from duplicates of the name list. -/
lemma nodup_names_processResult (target : Target) (st : CompState) (r : ProfileResult)
    (h : st.names.Nodup) : (processResult target st r).names.Nodup := by
  rw [processResult_names]
  by_cases hs : skipName r.name
  · simpa [hs]
  · by_cases hm : r.name ∈ st.names
    · simpa [hs, hm]
    · simp only [if_neg hs, if_neg hm]
      simpa [List.nodup_append, hm] using h

/-- `processResults` preserves freedom from duplicates of the name list. -/
lemma nodup_names_processResults (report : ProfileReport) (target : Target) :
    ∀ st : CompState, st.names.Nodup → (processResults report target st).names.Nodup := by
  show ∀ st, st.names.Nodup → (report.results.foldl (processResult target) st).names.Nodup
  induction report.results with
  | nil => intro st h; simpa
  | cons r rs ih =>
    intro st h
    rw [List.foldl_cons]
    exact ih _ (nodup_names_processResult target st r h)

/-- Membership in the reconciled name set: exactly the filtered names of
either report. -/
lemma mem_names_buildComparison (mainData prData : ProfileReport) (x : String) :
    x ∈ (buildComparison mainData prData).names ↔
      (∃ r ∈ mainData.results, skipName r.name = false ∧ x = r.name) ∨
      (∃ r ∈ prData.results, skipName r.name = false ∧ x = r.name) := by
  unfold buildComparison
  rw [mem_names_processResults, mem_names_processResults]
  simp [or_comm]

/-- The reconciled name set has no duplicates. -/
lemma nodup_names_buildComparison (mainData prData : ProfileReport) :
    (buildComparison mainData prData).names.Nodup := by
  unfold buildComparison
  exact nodup_names_processResults _ _ _ (nodup_names_processResults _ _ _ List.nodup_nil)

/-- Membership in the sorted row-name list. -/
lemma mem_sortedFunctionNames (mainData prData : ProfileReport) (x : String) :
    x ∈ sortedFunctionNames mainData prData ↔
      (∃ r ∈ mainData.results, skipName r.name = false ∧ x = r.name) ∨
      (∃ r ∈ prData.results, skipName r.name = false ∧ x = r.name) := by
  unfold sortedFunctionNames
  rw [List.mem_mergeSort, mem_names_buildComparison]

/-- The row-name list is weakly sorted in the string order. -/
lemma sorted_le_sortedFunctionNames (mainData prData : ProfileReport) :
    List.Pairwise (fun a b : String => a ≤ b) (sortedFunctionNames mainData prData) := by
  have h := @List.sorted_mergeSort String (fun a b : String => decide (a ≤ b))
    (fun a b c hab hbc => by
      simp only [decide_eq_true_eq] at hab hbc ⊢
      exact le_trans hab hbc)
    (fun a b => by
      simp only [Bool.or_eq_true, decide_eq_true_eq]
      exact le_total a b)
    (buildComparison mainData prData).names
  exact h.imp (fun hab => of_decide_eq_true hab)

/-- The row-name list has no duplicates. -/
lemma nodup_sortedFunctionNames (mainData prData : ProfileReport) :
    (sortedFunctionNames mainData prData).Nodup := by
  unfold sortedFunctionNames
  exact ((List.mergeSort_perm _ _).nodup_iff).mpr (nodup_names_buildComparison mainData prData)

/-- The row-name list is strictly sorted: names appear in ascending order
without repetition. -/
lemma sorted_lt_sortedFunctionNames (mainData prData : ProfileReport) :
    List.Pairwise (fun a b : String => a < b) (sortedFunctionNames mainData prData) := by
  have h1 := sorted_le_sortedFunctionNames mainData prData
  have h2 := nodup_sortedFunctionNames mainData prData
  exact (h1.and h2).imp (fun ⟨hle, hne⟩ => lt_of_le_of_ne hle hne)

/-- The sorted row-name list is determined by the contents of the two
result lists, not their order. -/
lemma sortedFunctionNames_perm_eq (mainData prData mainData' prData' : ProfileReport)
    (hm : mainData.results.Perm mainData'.results)
    (hp : prData.results.Perm prData'.results) :
    sortedFunctionNames mainData prData = sortedFunctionNames mainData' prData' := by
  have h3 : (buildComparison mainData prData).names.Perm
      (buildComparison mainData' prData').names := by
    rw [List.perm_ext_iff_of_nodup (nodup_names_buildComparison _ _)
      (nodup_names_buildComparison _ _)]
    intro a
    rw [mem_names_buildComparison, mem_names_buildComparison]
    constructor
    · rintro (⟨r, hr, h⟩ | ⟨r, hr, h⟩)
      · exact Or.inl ⟨r, hm.mem_iff.mp hr, h⟩
      · exact Or.inr ⟨r, hp.mem_iff.mp hr, h⟩
    · rintro (⟨r, hr, h⟩ | ⟨r, hr, h⟩)
      · exact Or.inl ⟨r, hm.mem_iff.mpr hr, h⟩
      · exact Or.inr ⟨r, hp.mem_iff.mpr hr, h⟩
  have h1 : (sortedFunctionNames mainData prData).Perm
      (sortedFunctionNames mainData' prData') :=
    (List.mergeSort_perm _ _).trans (h3.trans (List.mergeSort_perm _ _).symm)
  exact List.eq_of_perm_of_sorted h1
    (sorted_le_sortedFunctionNames mainData prData)
    (sorted_le_sortedFunctionNames mainData' prData')

/-- The success flag of `unitSections` is the well-formedness of the load
outcome. -/
lemma unitSections_ok (t : ℚ) (p : BenchmarkPair) :
    (unitSections t p).2 = wellFormedLoad p.load := by
  rcases p with ⟨n, load⟩
  cases load with
  | loadError msg => rfl
  | loaded mo po => cases mo <;> cases po <;> rfl

/-- Unrolled form of the per-contract loop: sections concatenate per pair,
the count totals the well-formed pairs. -/
lemma runComparisonSections_eq (t : ℚ) (pairs : List BenchmarkPair) :
    runComparisonSections t pairs =
      (pairs.flatMap (fun p => (unitSections t p).1),
       (pairs.filter (fun p => wellFormedLoad p.load)).length) := by
  suffices h : ∀ acc : List String × Nat,
      pairs.foldl (fun acc p =>
        let s := unitSections t p
        (acc.1 ++ s.1, acc.2 + (if s.2 then 1 else 0))) acc =
      (acc.1 ++ pairs.flatMap (fun p => (unitSections t p).1),
       acc.2 + (pairs.filter (fun p => wellFormedLoad p.load)).length) by
    rw [runComparisonSections, h ([], 0)]
    simp
  induction pairs with
  | nil => intro acc; simp
  | cons p ps ih =>
    intro acc
    rw [List.foldl_cons, ih]
    refine Prod.ext ?_ ?_
    · simp [List.append_assoc]
    · simp only [List.filter_cons, unitSections_ok]
      cases hw : wellFormedLoad p.load <;> (simp; try omega)

/-- Negated membership form of `hasRegression`. -/
lemma hasRegression_eq_false_iff (m : ComparisonResult) (t : ℚ) :
    hasRegression m t = false ↔
      ¬ (Pct.inf ∈ metricPcts m ∨ ∃ q : ℚ, Pct.fin q ∈ metricPcts m ∧ t < q) := by
  rw [← hasRegression_iff]
  exact ⟨fun h => by simp [h], fun h => by simpa using h⟩

/-- Negated membership form of `hasImprovement`. -/
lemma hasImprovement_eq_false_iff (m : ComparisonResult) (t : ℚ) :
    hasImprovement m t = false ↔
      ¬ (∃ q : ℚ, Pct.fin q ∈ metricPcts m ∧ q < -t) := by
  rw [← hasImprovement_iff]
  exact ⟨fun h => by simp [h], fun h => by simpa using h⟩

/-- metricPcts of a literal entry. -/
lemma metricPcts_mk (g1 g2 d1 d2 l1 l2 : Int) :
    metricPcts ⟨⟨g1, g2⟩, ⟨d1, d2⟩, ⟨l1, l2⟩⟩ =
      [calcPctDiff g1 g2, calcPctDiff d1 d2, calcPctDiff l1 l2] := rfl

/-- Full single-metric removal: the delta is the finite −100%. -/
lemma calcPctDiff_pos_zero {a : Int} (ha : a ≠ 0) : calcPctDiff a 0 = Pct.fin (-1) := by
  rw [calcPctDiff_of_ne 0 ha]
  congr 1
  rw [Int.cast_zero, zero_sub, neg_div, div_self (Int.cast_ne_zero.mpr ha)]

/-- Deltas of an entry whose first metric is fully removed and whose other
metrics are unchanged. -/
lemma metricPcts_removal (a b c : Int) (ha : a ≠ 0) :
    metricPcts ⟨⟨a, 0⟩, ⟨b, b⟩, ⟨c, c⟩⟩ = [Pct.fin (-1), Pct.fin 0, Pct.fin 0] := by
  rw [metricPcts_mk, calcPctDiff_pos_zero ha, calcPctDiff_self, calcPctDiff_self]

/-- Deltas of an entry whose first metric changes and whose other metrics
are unchanged. -/
lemma metricPcts_single_change (g1 g2 a b : Int) (hg : g1 ≠ 0) :
    metricPcts ⟨⟨g1, g2⟩, ⟨a, a⟩, ⟨b, b⟩⟩ =
      [Pct.fin (((g2 : ℚ) - (g1 : ℚ)) / (g1 : ℚ)), Pct.fin 0, Pct.fin 0] := by
  rw [metricPcts_mk, calcPctDiff_of_ne _ hg, calcPctDiff_self, calcPctDiff_self]

/-- An entry with both sides equal on every metric is classified Unchanged
for every nonnegative threshold. -/
lemma getStatusEmoji_unchanged_of_eq (m : ComparisonResult) (t : ℚ) (ht : 0 ≤ t)
    (hg : m.gates.pr = m.gates.main) (hd : m.daGas.pr = m.daGas.main)
    (hl : m.l2Gas.pr = m.l2Gas.main) :
    getStatusEmoji m t = "⚪" := by
  have hpcts : metricPcts m = [Pct.fin 0, Pct.fin 0, Pct.fin 0] := by
    rw [metricPcts, hg, hd, hl, calcPctDiff_self, calcPctDiff_self, calcPctDiff_self]
  have hnew : ¬ isNewEntry m := by
    rintro ⟨h1, h2, h3, (h | h | h)⟩ <;> omega
  have hrem : ¬ isRemovedEntry m := by
    rintro ⟨h1, h2, h3, (h | h | h)⟩ <;> omega
  have hreg : hasRegression m t = false := by
    rw [hasRegression_eq_false_iff, hpcts]
    rintro (h | ⟨q, hq, hlt⟩)
    · simp at h
    · simp at hq
      subst hq
      linarith
  have himp : hasImprovement m t = false := by
    rw [hasImprovement_eq_false_iff, hpcts]
    rintro ⟨q, hq, hlt⟩
    simp at hq
    subst hq
    linarith
  exact getStatusEmoji_white hnew hrem hreg himp

/-- A single fully removed metric (with the others unchanged) never yields
the Regression status when the threshold is nonnegative. -/
lemma removal_not_red (a b c : Int) (t : ℚ) (ha : 0 < a) (ht : 0 ≤ t) :
    getStatusEmoji ⟨⟨a, 0⟩, ⟨b, b⟩, ⟨c, c⟩⟩ t ≠ "🔴" := by
  have hpcts := metricPcts_removal a b c ha.ne'
  have hnew : ¬ isNewEntry ⟨⟨a, 0⟩, ⟨b, b⟩, ⟨c, c⟩⟩ := by
    rintro ⟨h1, -, -, -⟩
    simp only [] at h1
    omega
  have hreg : hasRegression ⟨⟨a, 0⟩, ⟨b, b⟩, ⟨c, c⟩⟩ t = false := by
    rw [hasRegression_eq_false_iff, hpcts]
    rintro (h | ⟨q, hq, hlt⟩)
    · simp at h
    · simp at hq
      rcases hq with rfl | rfl <;> linarith
  by_cases hrem : isRemovedEntry ⟨⟨a, 0⟩, ⟨b, b⟩, ⟨c, c⟩⟩
  · rw [getStatusEmoji_removed t hnew hrem]; decide
  · by_cases himp : hasImprovement ⟨⟨a, 0⟩, ⟨b, b⟩, ⟨c, c⟩⟩ t = true
    · rw [getStatusEmoji_green hnew hrem hreg himp]; decide
    · rw [getStatusEmoji_white hnew hrem hreg (Bool.not_eq_true _ ▸ himp)]; decide

/-- A single fully removed metric triggers the Improvement status whenever
the threshold is below 1 and another current metric keeps the entry out of
the Removed class. -/
lemma removal_green (a b c : Int) (t : ℚ) (ha : 0 < a) (ht : 0 ≤ t)
    (ht1 : t < 1) (hb : 0 < b) :
    getStatusEmoji ⟨⟨a, 0⟩, ⟨b, b⟩, ⟨c, c⟩⟩ t = "🟢" := by
  have hpcts := metricPcts_removal a b c ha.ne'
  have hnew : ¬ isNewEntry ⟨⟨a, 0⟩, ⟨b, b⟩, ⟨c, c⟩⟩ := by
    rintro ⟨h1, -, -, -⟩
    simp only [] at h1
    omega
  have hrem : ¬ isRemovedEntry ⟨⟨a, 0⟩, ⟨b, b⟩, ⟨c, c⟩⟩ := by
    rintro ⟨-, h2, -, -⟩
    simp only [] at h2
    omega
  have hreg : hasRegression ⟨⟨a, 0⟩, ⟨b, b⟩, ⟨c, c⟩⟩ t = false := by
    rw [hasRegression_eq_false_iff, hpcts]
    rintro (h | ⟨q, hq, hlt⟩)
    · simp at h
    · simp at hq
      rcases hq with rfl | rfl <;> linarith
  have himp : hasImprovement ⟨⟨a, 0⟩, ⟨b, b⟩, ⟨c, c⟩⟩ t = true := by
    rw [hasImprovement_iff]
    exact ⟨-1, by rw [hpcts]; simp, by linarith⟩
  exact getStatusEmoji_green hnew hrem hreg himp

/-- C1 counterexample: an entry whose every baseline metric is zero and
whose gate count rises from 0 to 50 is classified New, not Regression, even
though the gate metric's delta is the +∞ sentinel and the threshold is
0.99. -/
theorem C1_counterexample :
    calcPctDiff 0 50 = Pct.inf ∧
    getStatusEmoji ⟨⟨0, 50⟩, ⟨0, 0⟩, ⟨0, 0⟩⟩ (99/100) = "🆕" ∧
    ("🆕" : String) ≠ "🔴" := by
  refine ⟨rfl, ?_, by decide⟩
  exact getStatusEmoji_new _ (by decide)

/-- C1 (amended): if some metric has baseline 0 and current value positive,
that metric's delta is the +∞ sentinel and the entry is classified
Regression for every threshold, provided not all three baseline metrics are
zero (otherwise the New classification takes precedence). -/
theorem C1_infinite_increase_forces_regression (m : ComparisonResult) (t : ℚ)
    (hzero : (m.gates.main = 0 ∧ 0 < m.gates.pr) ∨ (m.daGas.main = 0 ∧ 0 < m.daGas.pr) ∨
      (m.l2Gas.main = 0 ∧ 0 < m.l2Gas.pr))
    (hbase : ¬ (m.gates.main = 0 ∧ m.daGas.main = 0 ∧ m.l2Gas.main = 0)) :
    Pct.inf ∈ metricPcts m ∧ getStatusEmoji m t = "🔴" := by
  have hinf : Pct.inf ∈ metricPcts m := by
    rcases hzero with ⟨h0, hp⟩ | ⟨h0, hp⟩ | ⟨h0, hp⟩ <;>
      simp [metricPcts, h0, calcPctDiff_zero_pos hp]
  have hnew : ¬ isNewEntry m := fun ⟨a, b, c, _⟩ => hbase ⟨a, b, c⟩
  have hrem : ¬ isRemovedEntry m := by
    rintro ⟨hg, hd, hl, -⟩
    rcases hzero with ⟨-, hp⟩ | ⟨-, hp⟩ | ⟨-, hp⟩ <;> omega
  exact ⟨hinf, getStatusEmoji_red hnew hrem ((hasRegression_iff m t).mpr (Or.inl hinf))⟩

/-- C1 witness: concrete instance with baseline DA gas 3 (so the entry is
not New), gate count 0 → 50, threshold 0.99. -/
theorem C1_witness :
    Pct.inf ∈ metricPcts ⟨⟨0, 50⟩, ⟨3, 0⟩, ⟨0, 0⟩⟩ ∧
    getStatusEmoji ⟨⟨0, 50⟩, ⟨3, 0⟩, ⟨0, 0⟩⟩ (99/100) = "🔴" :=
  C1_infinite_increase_forces_regression _ _ (Or.inl ⟨rfl, by decide⟩) (by decide)

/-- C2 counterexample: gates 100 → 0 with the other metrics unchanged at
100 renders the −100% sentinel and does not force Regression, but it does
change the entry's status: with threshold 0.05 the entry is classified
Improvement, while the same entry without the removal is Unchanged. -/
theorem C2_counterexample :
    formatDiff 100 0 = "-100% 🗑️" ∧
    getStatusEmoji ⟨⟨100, 0⟩, ⟨100, 100⟩, ⟨100, 100⟩⟩ (5/100) = "🟢" ∧
    getStatusEmoji ⟨⟨100, 100⟩, ⟨100, 100⟩, ⟨100, 100⟩⟩ (5/100) = "⚪" :=
  ⟨by decide,
   removal_green 100 100 100 (5/100) (by decide) (by norm_num) (by norm_num) (by decide),
   getStatusEmoji_unchanged_of_eq _ (5/100) (by norm_num) rfl rfl rfl⟩

/-- C2 (amended): a metric with positive baseline and current value 0 is
rendered with the −100% sentinel and never forces Regression by itself,
but it enters classification as the finite delta −1, so with a threshold
below 1 it triggers Improvement by itself whenever the entry stays out of
the Removed class. -/
theorem C2_removal_sentinel (a b c : Int) (t : ℚ) (ha : 0 < a) (ht : 0 ≤ t) :
    formatDiff a 0 = "-100% 🗑️" ∧
    calcPctDiff a 0 = Pct.fin (-1) ∧
    getStatusEmoji ⟨⟨a, 0⟩, ⟨b, b⟩, ⟨c, c⟩⟩ t ≠ "🔴" ∧
    (t < 1 → 0 < b → getStatusEmoji ⟨⟨a, 0⟩, ⟨b, b⟩, ⟨c, c⟩⟩ t = "🟢") := by
  refine ⟨?_, calcPctDiff_pos_zero ha.ne', removal_not_red a b c t ha ht,
    fun ht1 hb => removal_green a b c t ha ht ht1 hb⟩
  simp [formatDiff, ha.ne']

/-- C2 witness: concrete instance with gates 100 → 0, other metrics at 100,
threshold 0.05. -/
theorem C2_witness :
    formatDiff 100 0 = "-100% 🗑️" ∧
    calcPctDiff 100 0 = Pct.fin (-1) ∧
    getStatusEmoji ⟨⟨100, 0⟩, ⟨50, 50⟩, ⟨60, 60⟩⟩ (5/100) ≠ "🔴" ∧
    ((5 : ℚ)/100 < 1 → (0 : Int) < 50 →
      getStatusEmoji ⟨⟨100, 0⟩, ⟨50, 50⟩, ⟨60, 60⟩⟩ (5/100) = "🟢") :=
  C2_removal_sentinel 100 50 60 (5/100) (by decide) (by norm_num)

/-- C3: an entry with all-zero baseline and some positive current metric is
classified New, and an entry with all-zero current metrics and some
positive baseline metric is classified Removed, for every threshold
(including 0), before any threshold comparison. -/
theorem C3_structural_statuses (m : ComparisonResult) (t : ℚ) :
    (m.gates.main = 0 → m.daGas.main = 0 → m.l2Gas.main = 0 →
      (0 < m.gates.pr ∨ 0 < m.daGas.pr ∨ 0 < m.l2Gas.pr) →
      getStatusEmoji m t = "🆕") ∧
    (m.gates.pr = 0 → m.daGas.pr = 0 → m.l2Gas.pr = 0 →
      (0 < m.gates.main ∨ 0 < m.daGas.main ∨ 0 < m.l2Gas.main) →
      getStatusEmoji m t = "🚮") := by
  constructor
  · intro h1 h2 h3 h4
    exact getStatusEmoji_new t ⟨h1, h2, h3, h4⟩
  · intro h1 h2 h3 h4
    have hnew : ¬ isNewEntry m := by
      rintro ⟨-, -, -, (h | h | h)⟩ <;> omega
    exact getStatusEmoji_removed t hnew ⟨h1, h2, h3, h4⟩

/-- C3 witness: baseline all-zero with current gate count 500 is New at
threshold 0; current all-zero with baseline gate count 7 is Removed at
threshold 0. -/
theorem C3_witness :
    getStatusEmoji ⟨⟨0, 500⟩, ⟨0, 0⟩, ⟨0, 0⟩⟩ 0 = "🆕" ∧
    getStatusEmoji ⟨⟨7, 0⟩, ⟨0, 0⟩, ⟨0, 0⟩⟩ 0 = "🚮" :=
  ⟨(C3_structural_statuses _ 0).1 rfl rfl rfl (by decide),
   (C3_structural_statuses _ 0).2 rfl rfl rfl (by decide)⟩

/-- C4: with threshold 0.025, a metric moving 1000 → 1026 (others
unchanged) yields Regression, 1000 → 1024 yields Unchanged and 1000 → 974
yields Improvement; in general, for entries that are neither New nor
Removed, a finite delta above the threshold yields Regression, and a
finite delta below the negated threshold yields Improvement when no metric
triggers Regression (Regression takes precedence). -/
theorem C4_threshold_boundary :
    (∀ a b : Int, getStatusEmoji ⟨⟨1000, 1026⟩, ⟨a, a⟩, ⟨b, b⟩⟩ (25/1000) = "🔴") ∧
    (∀ a b : Int, getStatusEmoji ⟨⟨1000, 1024⟩, ⟨a, a⟩, ⟨b, b⟩⟩ (25/1000) = "⚪") ∧
    (∀ a b : Int, getStatusEmoji ⟨⟨1000, 974⟩, ⟨a, a⟩, ⟨b, b⟩⟩ (25/1000) = "🟢") ∧
    (∀ (m : ComparisonResult) (t : ℚ), ¬ isNewEntry m → ¬ isRemovedEntry m →
      (∃ q : ℚ, Pct.fin q ∈ metricPcts m ∧ t < q) → getStatusEmoji m t = "🔴") ∧
    (∀ (m : ComparisonResult) (t : ℚ), ¬ isNewEntry m → ¬ isRemovedEntry m →
      hasRegression m t = false → (∃ q : ℚ, Pct.fin q ∈ metricPcts m ∧ q < -t) →
      getStatusEmoji m t = "🟢") := by
  refine ⟨?_, ?_, ?_, ?_, ?_⟩
  · intro a b
    have hpcts := metricPcts_single_change 1000 1026 a b (by norm_num)
    refine getStatusEmoji_red ?_ ?_ ?_
    · rintro ⟨h1, -, -, -⟩; simp only [] at h1; omega
    · rintro ⟨h1, -, -, -⟩; simp only [] at h1; omega
    · rw [hasRegression_iff]
      exact Or.inr ⟨((1026 : ℚ) - 1000)/1000, by rw [hpcts]; simp, by norm_num⟩
  · intro a b
    have hpcts := metricPcts_single_change 1000 1024 a b (by norm_num)
    have hnew : ¬ isNewEntry ⟨⟨1000, 1024⟩, ⟨a, a⟩, ⟨b, b⟩⟩ := by
      rintro ⟨h1, -, -, -⟩; simp only [] at h1; omega
    have hrem : ¬ isRemovedEntry ⟨⟨1000, 1024⟩, ⟨a, a⟩, ⟨b, b⟩⟩ := by
      rintro ⟨h1, -, -, -⟩; simp only [] at h1; omega
    have hreg : hasRegression ⟨⟨1000, 1024⟩, ⟨a, a⟩, ⟨b, b⟩⟩ (25/1000) = false := by
      rw [hasRegression_eq_false_iff, hpcts]
      rintro (h | ⟨q, hq, hlt⟩)
      · simp at h
      · simp at hq
        rcases hq with rfl | rfl <;> norm_num at hlt
    have himp : hasImprovement ⟨⟨1000, 1024⟩, ⟨a, a⟩, ⟨b, b⟩⟩ (25/1000) = false := by
      rw [hasImprovement_eq_false_iff, hpcts]
      rintro ⟨q, hq, hlt⟩
      simp at hq
      rcases hq with rfl | rfl <;> norm_num at hlt
    exact getStatusEmoji_white hnew hrem hreg himp
  · intro a b
    have hpcts := metricPcts_single_change 1000 974 a b (by norm_num)
    have hnew : ¬ isNewEntry ⟨⟨1000, 974⟩, ⟨a, a⟩, ⟨b, b⟩⟩ := by
      rintro ⟨h1, -, -, -⟩; simp only [] at h1; omega
    have hrem : ¬ isRemovedEntry ⟨⟨1000, 974⟩, ⟨a, a⟩, ⟨b, b⟩⟩ := by
      rintro ⟨h1, -, -, -⟩; simp only [] at h1; omega
    have hreg : hasRegression ⟨⟨1000, 974⟩, ⟨a, a⟩, ⟨b, b⟩⟩ (25/1000) = false := by
      rw [hasRegression_eq_false_iff, hpcts]
      rintro (h | ⟨q, hq, hlt⟩)
      · simp at h
      · simp at hq
        rcases hq with rfl | rfl <;> norm_num at hlt
    have himp : hasImprovement ⟨⟨1000, 974⟩, ⟨a, a⟩, ⟨b, b⟩⟩ (25/1000) = true := by
      rw [hasImprovement_iff]
      exact ⟨((974 : ℚ) - 1000)/1000, by rw [hpcts]; simp, by norm_num⟩
    exact getStatusEmoji_green hnew hrem hreg himp
  · rintro m t hnew hrem ⟨q, hq, hlt⟩
    exact getStatusEmoji_red hnew hrem ((hasRegression_iff m t).mpr (Or.inr ⟨q, hq, hlt⟩))
  · rintro m t hnew hrem hreg ⟨q, hq, hlt⟩
    exact getStatusEmoji_green hnew hrem hreg
      ((hasImprovement_iff m t).mpr ⟨q, hq, hlt⟩)

/-- C4 witness: the three boundary scenarios at concrete neighbours 5 and
7, and the general Regression clause applied at gates 200 → 300 with
threshold 0.025. -/
theorem C4_witness :
    getStatusEmoji ⟨⟨1000, 1026⟩, ⟨5, 5⟩, ⟨7, 7⟩⟩ (25/1000) = "🔴" ∧
    getStatusEmoji ⟨⟨1000, 1024⟩, ⟨5, 5⟩, ⟨7, 7⟩⟩ (25/1000) = "⚪" ∧
    getStatusEmoji ⟨⟨1000, 974⟩, ⟨5, 5⟩, ⟨7, 7⟩⟩ (25/1000) = "🟢" ∧
    getStatusEmoji ⟨⟨200, 300⟩, ⟨9, 9⟩, ⟨4, 4⟩⟩ (25/1000) = "🔴" :=
  ⟨C4_threshold_boundary.1 5 7,
   C4_threshold_boundary.2.1 5 7,
   C4_threshold_boundary.2.2.1 5 7,
   C4_threshold_boundary.2.2.2.1 ⟨⟨200, 300⟩, ⟨9, 9⟩, ⟨4, 4⟩⟩ (25/1000)
     (by decide) (by decide)
     ⟨((300 : ℚ) - 200)/200,
      by rw [metricPcts_single_change 200 300 9 4 (by norm_num)]; simp,
      by norm_num⟩⟩

/-- C5: a metric that is zero on both sides has percent delta 0, a zero
delta never exceeds a nonnegative threshold in either direction, and the
all-zero entry is classified Unchanged. -/
theorem C5_zero_zero_neutral (t : ℚ) (ht : 0 ≤ t) :
    calcPctDiff 0 0 = Pct.fin 0 ∧
    (∀ q : ℚ, calcPctDiff 0 0 = Pct.fin q → ¬ (t < q) ∧ ¬ (q < -t)) ∧
    getStatusEmoji ⟨⟨0, 0⟩, ⟨0, 0⟩, ⟨0, 0⟩⟩ t = "⚪" := by
  refine ⟨calcPctDiff_zero_zero, ?_, ?_⟩
  · intro q hq
    rw [calcPctDiff_zero_zero] at hq
    obtain rfl : (0 : ℚ) = q := by simpa using hq
    constructor <;> intro h <;> linarith
  · exact getStatusEmoji_unchanged_of_eq _ t ht rfl rfl rfl

/-- C5 witness: threshold 0.025. -/
theorem C5_witness :
    calcPctDiff 0 0 = Pct.fin 0 ∧
    (∀ q : ℚ, calcPctDiff 0 0 = Pct.fin q → ¬ ((25 : ℚ)/1000 < q) ∧ ¬ (q < -(25/1000))) ∧
    getStatusEmoji ⟨⟨0, 0⟩, ⟨0, 0⟩, ⟨0, 0⟩⟩ (25/1000) = "⚪" :=
  C5_zero_zero_neutral (25/1000) (by norm_num)

/-- C6: a record whose name is empty, starts with `unknown_function`, or
contains `(FAILED)` never appears as a row of the rendered table, whichever
side it occurs on. -/
theorem C6_excluded_names_never_rendered (mainData prData : ProfileReport) (name : String)
    (h : skipName name = true) :
    name ∉ sortedFunctionNames mainData prData := by
  rw [mem_sortedFunctionNames]
  rintro (⟨r, hr, hskip, rfl⟩ | ⟨r, hr, hskip, rfl⟩) <;> simp [hskip] at h

/-- C6 witness: a failed-measurement record on the baseline side and a
placeholder record on the current side never become rows. -/
theorem C6_witness :
    "transfer (FAILED)" ∉
      sortedFunctionNames ⟨[⟨"transfer (FAILED)", some 5, none⟩]⟩
        ⟨[⟨"unknown_function_abcd", none, none⟩]⟩ :=
  C6_excluded_names_never_rendered _ _ _ (by decide)

/-- C7: table rows are strictly sorted by function name, the row-name list
is unchanged under any reordering of either input's records, and
re-generating the table on identical inputs yields an identical string. -/
theorem C7_deterministic_sorted_rows (mainData prData mainData' prData' : ProfileReport)
    (t : ℚ)
    (hm : mainData.results.Perm mainData'.results)
    (hp : prData.results.Perm prData'.results) :
    List.Pairwise (fun a b : String => a < b) (sortedFunctionNames mainData prData) ∧
    sortedFunctionNames mainData prData = sortedFunctionNames mainData' prData' ∧
    generateContractComparisonTable mainData prData t =
      generateContractComparisonTable mainData prData t :=
  ⟨sorted_lt_sortedFunctionNames _ _, sortedFunctionNames_perm_eq _ _ _ _ hm hp, rfl⟩

/-- C7 witness: two records discovered in opposite orders produce the same
sorted row names. -/
theorem C7_witness :
    List.Pairwise (fun a b : String => a < b)
      (sortedFunctionNames ⟨[⟨"b", some 1, none⟩, ⟨"a", some 2, none⟩]⟩ ⟨[]⟩) ∧
    sortedFunctionNames ⟨[⟨"b", some 1, none⟩, ⟨"a", some 2, none⟩]⟩ ⟨[]⟩ =
      sortedFunctionNames ⟨[⟨"a", some 2, none⟩, ⟨"b", some 1, none⟩]⟩ ⟨[]⟩ ∧
    generateContractComparisonTable ⟨[⟨"b", some 1, none⟩, ⟨"a", some 2, none⟩]⟩ ⟨[]⟩ 0 =
      generateContractComparisonTable ⟨[⟨"b", some 1, none⟩, ⟨"a", some 2, none⟩]⟩ ⟨[]⟩ 0 :=
  C7_deterministic_sorted_rows _ _ _ _ 0
    (List.Perm.swap (⟨"a", some 2, none⟩ : ProfileResult) (⟨"b", some 1, none⟩ : ProfileResult) [])
    (List.Perm.refl [])

/-- C8: when the second of three discovered contracts fails to load (thrown
read/parse error) or fails basic validation (missing results array), its
section is the explicit error or skip notice while the first and third
render their normal sections, and the success count is 2; in general the
success count equals the number of well-formed units. -/
theorem C8_per_unit_isolation (t : ℚ) (n1 n2 n3 : String)
    (m1 p1 m3 p3 : List ProfileResult) (msg : String) :
    runComparisonSections t
        [⟨n1, UnitLoad.loaded (some m1) (some p1)⟩,
         ⟨n2, UnitLoad.loadError msg⟩,
         ⟨n3, UnitLoad.loaded (some m3) (some p3)⟩] =
      (["## Contract: " ++ n1,
        generateContractComparisonTable ⟨m1⟩ ⟨p1⟩ t,
        "\n---\n",
        "## Contract: " ++ n2 ++ "\n",
        "\n⚠️ Error comparing benchmarks for this contract: " ++ msg ++ "\n",
        "\n---\n",
        "## Contract: " ++ n3,
        generateContractComparisonTable ⟨m3⟩ ⟨p3⟩ t,
        "\n---\n"], 2) ∧
    runComparisonSections t
        [⟨n1, UnitLoad.loaded (some m1) (some p1)⟩,
         ⟨n2, UnitLoad.loaded none (some p1)⟩,
         ⟨n3, UnitLoad.loaded (some m3) (some p3)⟩] =
      (["## Contract: " ++ n1,
        generateContractComparisonTable ⟨m1⟩ ⟨p1⟩ t,
        "\n---\n",
        "## Contract: " ++ n2 ++ "\n\n_Skipped: Invalid benchmark JSON structure._\n",
        "## Contract: " ++ n3,
        generateContractComparisonTable ⟨m3⟩ ⟨p3⟩ t,
        "\n---\n"], 2) ∧
    (∀ pairs : List BenchmarkPair,
      (runComparisonSections t pairs).2 =
        (pairs.filter (fun p => wellFormedLoad p.load)).length) := by
  refine ⟨?_, ?_, fun pairs => by rw [runComparisonSections_eq]⟩ <;>
    simp [runComparisonSections_eq, unitSections, wellFormedLoad]

/-- C9: an undefined `regression_threshold_percentage` yields an effective
threshold fraction of 0, so an entry that is neither New nor Removed with a
positive finite delta on some metric is classified Regression, while an
entry with every metric unchanged stays Unchanged. -/
theorem C9_undefined_threshold (config : Config)
    (h : config.regression_threshold_percentage = none) :
    effectiveThresholdDecimal config = 0 ∧
    (∀ m : ComparisonResult, ¬ isNewEntry m → ¬ isRemovedEntry m →
      (∃ q : ℚ, Pct.fin q ∈ metricPcts m ∧ 0 < q) →
      getStatusEmoji m (effectiveThresholdDecimal config) = "🔴") ∧
    (∀ m : ComparisonResult, m.gates.pr = m.gates.main → m.daGas.pr = m.daGas.main →
      m.l2Gas.pr = m.l2Gas.main →
      getStatusEmoji m (effectiveThresholdDecimal config) = "⚪") := by
  have ht : effectiveThresholdDecimal config = 0 := by
    rw [effectiveThresholdDecimal, h]
    simp
  refine ⟨ht, ?_, ?_⟩
  · rintro m hnew hrem ⟨q, hq, hqpos⟩
    rw [ht]
    exact getStatusEmoji_red hnew hrem ((hasRegression_iff m 0).mpr (Or.inr ⟨q, hq, hqpos⟩))
  · intro m hg hd hl
    rw [ht]
    exact getStatusEmoji_unchanged_of_eq m 0 le_rfl hg hd hl

/-- C9 witness: with no configured threshold, gates 100 → 101 (+1%) is
Regression and an entry with all metrics unchanged is Unchanged. -/
theorem C9_witness :
    effectiveThresholdDecimal ⟨none⟩ = 0 ∧
    getStatusEmoji ⟨⟨100, 101⟩, ⟨0, 0⟩, ⟨0, 0⟩⟩ (effectiveThresholdDecimal ⟨none⟩) = "🔴" ∧
    getStatusEmoji ⟨⟨100, 100⟩, ⟨3, 3⟩, ⟨0, 0⟩⟩ (effectiveThresholdDecimal ⟨none⟩) = "⚪" :=
  have h := C9_undefined_threshold ⟨none⟩ rfl
  ⟨h.1,
   h.2.1 _ (by decide) (by decide)
     ⟨((101 : ℚ) - 100)/100,
      by rw [metricPcts_single_change 100 101 0 0 (by norm_num)]; simp,
      by norm_num⟩,
   h.2.2 _ rfl rfl rfl⟩

/-- C10: the gas getters are total: they return 0 for a missing record or
missing `gas` field, 0 when both sub-objects are missing, and otherwise the
sum of the present execution and teardown components of their dimension. -/
theorem C10_gas_getters_total (r : ProfileResult) (g : GasInfo) (gl tl : Gas) :
    getDaGas none = 0 ∧ getL2Gas none = 0 ∧
    (r.gas = none → getDaGas (some r) = 0 ∧ getL2Gas (some r) = 0) ∧
    (r.gas = some g → g.gasLimits = none → g.teardownGasLimits = none →
      getDaGas (some r) = 0 ∧ getL2Gas (some r) = 0) ∧
    (r.gas = some g → g.gasLimits = some gl → g.teardownGasLimits = none →
      getDaGas (some r) = gl.daGas ∧ getL2Gas (some r) = gl.l2Gas) ∧
    (r.gas = some g → g.gasLimits = none → g.teardownGasLimits = some tl →
      getDaGas (some r) = tl.daGas ∧ getL2Gas (some r) = tl.l2Gas) ∧
    (r.gas = some g → g.gasLimits = some gl → g.teardownGasLimits = some tl →
      getDaGas (some r) = gl.daGas + tl.daGas ∧ getL2Gas (some r) = gl.l2Gas + tl.l2Gas) := by
  refine ⟨rfl, rfl, ?_, ?_, ?_, ?_, ?_⟩
  · intro h1
    constructor <;> simp [getDaGas, getL2Gas, h1]
  · intro h1 h2 h3
    constructor <;> simp [getDaGas, getL2Gas, h1, h2, h3]
  · intro h1 h2 h3
    constructor <;> simp [getDaGas, getL2Gas, h1, h2, h3]
  · intro h1 h2 h3
    constructor <;> simp [getDaGas, getL2Gas, h1, h2, h3]
  · intro h1 h2 h3
    constructor <;> simp [getDaGas, getL2Gas, h1, h2, h3]

/-- C10 witness: a record with both sub-objects present sums them; the
missing cases return 0. -/
theorem C10_witness :
    getDaGas (some ⟨"f", none, some ⟨some ⟨2, 3⟩, some ⟨5, 7⟩⟩⟩) = 2 + 5 ∧
    getL2Gas (some ⟨"f", none, some ⟨some ⟨2, 3⟩, some ⟨5, 7⟩⟩⟩) = 3 + 7 :=
  (C10_gas_getters_total ⟨"f", none, some ⟨some ⟨2, 3⟩, some ⟨5, 7⟩⟩⟩
    ⟨some ⟨2, 3⟩, some ⟨5, 7⟩⟩ ⟨2, 3⟩ ⟨5, 7⟩).2.2.2.2.2.2 rfl rfl rfl
